import Mathlib

/-!
Shallow embedding of the NAT_Traversal relay (Rust) for checking its
natural-language specification.  Sources embedded:
  - src/common/src/protocol.rs   (Message, TunnelInfo, codec)
  - src/common/src/error.rs      (NatError display strings)
  - src/server/src/server.rs     (NatServer::handle_read / handle_message)
  - src/server/src/connection.rs (ClientConnection, ConnectionManager)
  - src/server/src/tunnel.rs     (PortAllocator, TunnelManager, TunnelHandler)
  - src/client/src/connection.rs (ServerConnection client engine)

Machine integers are modelled as `Nat` with explicit `% 2^w` at the points
where the Rust release-mode wrapping semantics can matter (u16 cursor
increment in the port allocator, u32 connection-id counter).  Async I/O is
modelled by explicit state passing: each mpsc channel is a list the sender
appends to, and each task's loop is a fold over its inputs.
-/

namespace NatTraversal

/-! ### Association-list maps

`std::collections::HashMap` is modelled by an association list whose
observable behaviour (lookup) matches `HashMap`: `insert` replaces an
existing binding for the key, `remove` deletes it. -/

def alookup {κ α : Type} [DecidableEq κ] (k : κ) : List (κ × α) → Option α
  | [] => none
  | (k', v) :: rest => if k' = k then some v else alookup k rest

def aremove {κ α : Type} [DecidableEq κ] (k : κ) (m : List (κ × α)) :
    List (κ × α) :=
  m.filter (fun p => p.1 ≠ k)

def ainsert {κ α : Type} [DecidableEq κ] (k : κ) (v : α) (m : List (κ × α)) :
    List (κ × α) :=
  (k, v) :: aremove k m

def acontains {κ α : Type} [DecidableEq κ] (k : κ) (m : List (κ × α)) : Bool :=
  (alookup k m).isSome

theorem alookup_ainsert_self {κ α : Type} [DecidableEq κ] (k : κ) (v : α)
    (m : List (κ × α)) : alookup k (ainsert k v m) = some v := by
  simp [alookup, ainsert]

theorem aremove_cons {κ α : Type} [DecidableEq κ] (k k0 : κ) (v0 : α)
    (tl : List (κ × α)) :
    aremove k ((k0, v0) :: tl) =
      if k0 = k then aremove k tl else (k0, v0) :: aremove k tl := by
  by_cases h : k0 = k
  · simp [aremove, List.filter_cons, h]
  · simp [aremove, List.filter_cons, h]

theorem alookup_aremove_ne {κ α : Type} [DecidableEq κ] (k k' : κ)
    (hk : k ≠ k') (m : List (κ × α)) :
    alookup k (aremove k' m) = alookup k m := by
  induction m with
  | nil => rfl
  | cons hd tl ih =>
    obtain ⟨k0, v0⟩ := hd
    rw [aremove_cons]
    by_cases h1 : k0 = k'
    · have hne : k0 ≠ k := fun h => hk (h ▸ h1)
      rw [if_pos h1]
      simp [alookup, hne, ih]
    · rw [if_neg h1]
      by_cases h2 : k0 = k
      · simp [alookup, h2]
      · simp [alookup, h2, ih]

theorem alookup_ainsert_ne {κ α : Type} [DecidableEq κ] (k k' : κ) (v : α)
    (hk : k ≠ k') (m : List (κ × α)) :
    alookup k (ainsert k' v m) = alookup k m := by
  have h2 : k' ≠ k := fun h => hk h.symm
  simp [ainsert, alookup, h2, alookup_aremove_ne k k' hk m]

/-! ### Protocol data model — src/common/src/protocol.rs

`Uuid` is the 128-bit tunnel identifier, modelled as a `Nat`.
`DateTime<Utc>` timestamps are modelled as a `Nat` (an instant).
`SocketAddr` is modelled by its canonical textual form (a `String`). -/

abbrev Uuid := Nat

def Uuid.nil : Uuid := 0

/-- `PROTOCOL_VERSION` from src/common/src/protocol.rs. -/
def PROTOCOL_VERSION : Nat := 1

inductive TunnelProtocol where
  | Tcp
  | Udp
  deriving DecidableEq, Repr

inductive ErrorCode where
  | AuthenticationFailed
  | InvalidMessage
  | TunnelNotFound
  | PortInUse
  | PermissionDenied
  | RateLimitExceeded
  | InternalError
  | ProtocolVersionMismatch
  deriving DecidableEq, Repr

structure TunnelInfo where
  id : Uuid
  name : Option String
  protocol : TunnelProtocol
  local_port : Nat
  remote_port : Nat
  created_at : Nat
  bytes_sent : Nat
  bytes_received : Nat
  active_connections : Nat
  deriving DecidableEq, Repr

/-- The `Message` enum of src/common/src/protocol.rs, the sole unit of wire
exchange.  `data` payloads are byte lists (`Vec<u8>`). -/
inductive Message where
  | Auth (version : Nat) (token : String) (client_id : String)
  | AuthResponse (success : Bool) (error : Option String) (server_version : Nat)
  | CreateTunnel (local_port : Nat) (remote_port : Option Nat)
      (protocol : TunnelProtocol) (name : Option String)
  | TunnelCreated (tunnel_id : Uuid) (remote_port : Nat) (local_port : Nat)
      (protocol : TunnelProtocol) (name : Option String)
  | CloseTunnel (tunnel_id : Uuid)
  | TunnelClosed (tunnel_id : Uuid) (reason : String)
  | Data (tunnel_id : Uuid) (data : List Nat) (connection_id : Nat)
  | NewConnection (tunnel_id : Uuid) (connection_id : Nat) (client_addr : String)
  | ConnectionClosed (tunnel_id : Uuid) (connection_id : Nat)
  | Ping (timestamp : Nat)
  | Pong (timestamp : Nat)
  | StatusRequest
  | Status (tunnels : List TunnelInfo) (connections : Nat) (uptime : Nat)
  | Error (code : ErrorCode) (message : String)
  deriving DecidableEq, Repr

/-! ### The serde_json codec — Message::to_bytes / Message::from_bytes

`Message::to_bytes` is `serde_json::to_vec(self)` and `Message::from_bytes`
is `serde_json::from_slice(data)` (protocol.rs lines 121–131).  serde_json
renders a JSON document and parses it back; that textual layer lives in the
serde_json crate and is mutually inverse, so the byte string is modelled by
the JSON value it renders.  The derived `Serialize`/`Deserialize` of the
repository's own types use serde's externally-tagged representation, which
is what `Json` terms below mirror.  The leaf encodings of the external
types `uuid::Uuid`, `chrono::DateTime<Utc>` and `std::net::SocketAddr`
(canonical strings produced by those crates' serde impls) are modelled as
opaque scalar leaves. -/

inductive Json where
  | null
  | bool (b : Bool)
  | num (n : Nat)
  | str (s : String)
  | arr (elems : List Json)
  | obj (fields : List (String × Json))
  | uuid (u : Uuid)
  | datetime (t : Nat)
  | sockaddr (a : String)

def jfield (k : String) : List (String × Json) → Option Json
  | [] => none
  | (k', v) :: rest => if k' = k then some v else jfield k rest

def asNum : Json → Option Nat
  | .num n => some n
  | _ => none

def asStr : Json → Option String
  | .str s => some s
  | _ => none

def asBool : Json → Option Bool
  | .bool b => some b
  | _ => none

def asUuid : Json → Option Uuid
  | .uuid u => some u
  | _ => none

def asDatetime : Json → Option Nat
  | .datetime t => some t
  | _ => none

def asSockaddr : Json → Option String
  | .sockaddr a => some a
  | _ => none

def asOptStr : Json → Option (Option String)
  | .null => some none
  | .str s => some (some s)
  | _ => none

def asOptNum : Json → Option (Option Nat)
  | .null => some none
  | .num n => some (some n)
  | _ => none

def jsonOfOptStr : Option String → Json
  | none => .null
  | some s => .str s

def jsonOfOptNum : Option Nat → Json
  | none => .null
  | some n => .num n

def TunnelProtocol.toJson : TunnelProtocol → Json
  | .Tcp => .str "Tcp"
  | .Udp => .str "Udp"

def TunnelProtocol.fromJson : Json → Option TunnelProtocol
  | .str "Tcp" => some .Tcp
  | .str "Udp" => some .Udp
  | _ => none

def ErrorCode.toJson : ErrorCode → Json
  | .AuthenticationFailed => .str "AuthenticationFailed"
  | .InvalidMessage => .str "InvalidMessage"
  | .TunnelNotFound => .str "TunnelNotFound"
  | .PortInUse => .str "PortInUse"
  | .PermissionDenied => .str "PermissionDenied"
  | .RateLimitExceeded => .str "RateLimitExceeded"
  | .InternalError => .str "InternalError"
  | .ProtocolVersionMismatch => .str "ProtocolVersionMismatch"

def ErrorCode.fromJson : Json → Option ErrorCode
  | .str "AuthenticationFailed" => some .AuthenticationFailed
  | .str "InvalidMessage" => some .InvalidMessage
  | .str "TunnelNotFound" => some .TunnelNotFound
  | .str "PortInUse" => some .PortInUse
  | .str "PermissionDenied" => some .PermissionDenied
  | .str "RateLimitExceeded" => some .RateLimitExceeded
  | .str "InternalError" => some .InternalError
  | .str "ProtocolVersionMismatch" => some .ProtocolVersionMismatch
  | _ => none

def TunnelInfo.toJson (t : TunnelInfo) : Json :=
  .obj [("id", .uuid t.id),
        ("name", jsonOfOptStr t.name),
        ("protocol", t.protocol.toJson),
        ("local_port", .num t.local_port),
        ("remote_port", .num t.remote_port),
        ("created_at", .datetime t.created_at),
        ("bytes_sent", .num t.bytes_sent),
        ("bytes_received", .num t.bytes_received),
        ("active_connections", .num t.active_connections)]

def TunnelInfo.fromJson : Json → Option TunnelInfo
  | .obj fs => do
    let id ← jfield "id" fs >>= asUuid
    let name ← jfield "name" fs >>= asOptStr
    let protocol ← jfield "protocol" fs >>= TunnelProtocol.fromJson
    let local_port ← jfield "local_port" fs >>= asNum
    let remote_port ← jfield "remote_port" fs >>= asNum
    let created_at ← jfield "created_at" fs >>= asDatetime
    let bytes_sent ← jfield "bytes_sent" fs >>= asNum
    let bytes_received ← jfield "bytes_received" fs >>= asNum
    let active_connections ← jfield "active_connections" fs >>= asNum
    pure ⟨id, name, protocol, local_port, remote_port, created_at,
          bytes_sent, bytes_received, active_connections⟩
  | _ => none

/-- `Message::to_bytes` (protocol.rs line 123): `serde_json::to_vec(self)`,
modelled by the serde data-model value the bytes render. -/
def Message.to_bytes : Message → Json
  | .Auth version token client_id =>
    .obj [("Auth", .obj [("version", .num version), ("token", .str token),
                         ("client_id", .str client_id)])]
  | .AuthResponse success error server_version =>
    .obj [("AuthResponse", .obj [("success", .bool success),
                                 ("error", jsonOfOptStr error),
                                 ("server_version", .num server_version)])]
  | .CreateTunnel local_port remote_port protocol name =>
    .obj [("CreateTunnel", .obj [("local_port", .num local_port),
                                 ("remote_port", jsonOfOptNum remote_port),
                                 ("protocol", protocol.toJson),
                                 ("name", jsonOfOptStr name)])]
  | .TunnelCreated tunnel_id remote_port local_port protocol name =>
    .obj [("TunnelCreated", .obj [("tunnel_id", .uuid tunnel_id),
                                  ("remote_port", .num remote_port),
                                  ("local_port", .num local_port),
                                  ("protocol", protocol.toJson),
                                  ("name", jsonOfOptStr name)])]
  | .CloseTunnel tunnel_id =>
    .obj [("CloseTunnel", .obj [("tunnel_id", .uuid tunnel_id)])]
  | .TunnelClosed tunnel_id reason =>
    .obj [("TunnelClosed", .obj [("tunnel_id", .uuid tunnel_id),
                                 ("reason", .str reason)])]
  | .Data tunnel_id data connection_id =>
    .obj [("Data", .obj [("tunnel_id", .uuid tunnel_id),
                         ("data", .arr (data.map Json.num)),
                         ("connection_id", .num connection_id)])]
  | .NewConnection tunnel_id connection_id client_addr =>
    .obj [("NewConnection", .obj [("tunnel_id", .uuid tunnel_id),
                                  ("connection_id", .num connection_id),
                                  ("client_addr", .sockaddr client_addr)])]
  | .ConnectionClosed tunnel_id connection_id =>
    .obj [("ConnectionClosed", .obj [("tunnel_id", .uuid tunnel_id),
                                     ("connection_id", .num connection_id)])]
  | .Ping timestamp => .obj [("Ping", .obj [("timestamp", .datetime timestamp)])]
  | .Pong timestamp => .obj [("Pong", .obj [("timestamp", .datetime timestamp)])]
  | .StatusRequest => .str "StatusRequest"
  | .Status tunnels connections uptime =>
    .obj [("Status", .obj [("tunnels", .arr (tunnels.map TunnelInfo.toJson)),
                           ("connections", .num connections),
                           ("uptime", .num uptime)])]
  | .Error code message =>
    .obj [("Error", .obj [("code", code.toJson), ("message", .str message)])]

/-- Sequential element-wise decoding of a JSON array of numbers, as serde
deserializes a `Vec<u8>`: stop at the first failing element. -/
def decodeNums : List Json → Option (List Nat)
  | [] => some []
  | j :: rest =>
    match asNum j, decodeNums rest with
    | some n, some ns => some (n :: ns)
    | _, _ => none

/-- Sequential element-wise decoding of a JSON array of `TunnelInfo`s. -/
def decodeTunnelInfos : List Json → Option (List TunnelInfo)
  | [] => some []
  | j :: rest =>
    match TunnelInfo.fromJson j, decodeTunnelInfos rest with
    | some t, some ts => some (t :: ts)
    | _, _ => none

def decodeVariant (tag : String) (body : Json) : Option Message :=
  match tag, body with
  | "Auth", .obj fs => do
    let version ← jfield "version" fs >>= asNum
    let token ← jfield "token" fs >>= asStr
    let client_id ← jfield "client_id" fs >>= asStr
    pure (.Auth version token client_id)
  | "AuthResponse", .obj fs => do
    let success ← jfield "success" fs >>= asBool
    let error ← jfield "error" fs >>= asOptStr
    let server_version ← jfield "server_version" fs >>= asNum
    pure (.AuthResponse success error server_version)
  | "CreateTunnel", .obj fs => do
    let local_port ← jfield "local_port" fs >>= asNum
    let remote_port ← jfield "remote_port" fs >>= asOptNum
    let protocol ← jfield "protocol" fs >>= TunnelProtocol.fromJson
    let name ← jfield "name" fs >>= asOptStr
    pure (.CreateTunnel local_port remote_port protocol name)
  | "TunnelCreated", .obj fs => do
    let tunnel_id ← jfield "tunnel_id" fs >>= asUuid
    let remote_port ← jfield "remote_port" fs >>= asNum
    let local_port ← jfield "local_port" fs >>= asNum
    let protocol ← jfield "protocol" fs >>= TunnelProtocol.fromJson
    let name ← jfield "name" fs >>= asOptStr
    pure (.TunnelCreated tunnel_id remote_port local_port protocol name)
  | "CloseTunnel", .obj fs => do
    let tunnel_id ← jfield "tunnel_id" fs >>= asUuid
    pure (.CloseTunnel tunnel_id)
  | "TunnelClosed", .obj fs => do
    let tunnel_id ← jfield "tunnel_id" fs >>= asUuid
    let reason ← jfield "reason" fs >>= asStr
    pure (.TunnelClosed tunnel_id reason)
  | "Data", .obj fs => do
    let tunnel_id ← jfield "tunnel_id" fs >>= asUuid
    let dataJ ← jfield "data" fs
    let data ← match dataJ with
      | .arr xs => decodeNums xs
      | _ => none
    let connection_id ← jfield "connection_id" fs >>= asNum
    pure (.Data tunnel_id data connection_id)
  | "NewConnection", .obj fs => do
    let tunnel_id ← jfield "tunnel_id" fs >>= asUuid
    let connection_id ← jfield "connection_id" fs >>= asNum
    let client_addr ← jfield "client_addr" fs >>= asSockaddr
    pure (.NewConnection tunnel_id connection_id client_addr)
  | "ConnectionClosed", .obj fs => do
    let tunnel_id ← jfield "tunnel_id" fs >>= asUuid
    let connection_id ← jfield "connection_id" fs >>= asNum
    pure (.ConnectionClosed tunnel_id connection_id)
  | "Ping", .obj fs => do
    let timestamp ← jfield "timestamp" fs >>= asDatetime
    pure (.Ping timestamp)
  | "Pong", .obj fs => do
    let timestamp ← jfield "timestamp" fs >>= asDatetime
    pure (.Pong timestamp)
  | "Status", .obj fs => do
    let tunnelsJ ← jfield "tunnels" fs
    let tunnels ← match tunnelsJ with
      | .arr xs => decodeTunnelInfos xs
      | _ => none
    let connections ← jfield "connections" fs >>= asNum
    let uptime ← jfield "uptime" fs >>= asNum
    pure (.Status tunnels connections uptime)
  | "Error", .obj fs => do
    let code ← jfield "code" fs >>= ErrorCode.fromJson
    let message ← jfield "message" fs >>= asStr
    pure (.Error code message)
  | _, _ => none

/-- `Message::from_bytes` (protocol.rs line 128): `serde_json::from_slice`,
modelled on the parsed JSON value.  Externally-tagged enums deserialize
from either the bare tag string (unit variants) or a one-field map. -/
def Message.from_bytes : Json → Option Message
  | .str "StatusRequest" => some .StatusRequest
  | .obj [(tag, body)] => decodeVariant tag body
  | _ => none

theorem asOptStr_jsonOfOptStr (o : Option String) :
    asOptStr (jsonOfOptStr o) = some o := by
  cases o <;> rfl

theorem asOptNum_jsonOfOptNum (o : Option Nat) :
    asOptNum (jsonOfOptNum o) = some o := by
  cases o <;> rfl

theorem tunnelProtocol_fromJson_toJson (p : TunnelProtocol) :
    TunnelProtocol.fromJson p.toJson = some p := by
  cases p <;> rfl

theorem errorCode_fromJson_toJson (c : ErrorCode) :
    ErrorCode.fromJson c.toJson = some c := by
  cases c <;> rfl

theorem tunnelInfo_fromJson_toJson (t : TunnelInfo) :
    TunnelInfo.fromJson t.toJson = some t := by
  obtain ⟨id, name, protocol, lp, rp, ca, bs, br, ac⟩ := t
  cases name <;> cases protocol <;> rfl

theorem decodeNums_map (l : List Nat) :
    decodeNums (l.map Json.num) = some l := by
  induction l with
  | nil => rfl
  | cons h t ih => simp [decodeNums, asNum, ih]

theorem decodeTunnelInfos_map (ts : List TunnelInfo) :
    decodeTunnelInfos (ts.map TunnelInfo.toJson) = some ts := by
  induction ts with
  | nil => rfl
  | cons h t ih => simp [decodeTunnelInfos, tunnelInfo_fromJson_toJson, ih]

/-- Claim C6: for every `Message` value, `from_bytes (to_bytes m)` succeeds and
yields `m`, and `to_bytes` is deterministic (equal values encode to
identical bytes). -/
theorem message_codec_roundtrip (m : Message) :
    Message.from_bytes m.to_bytes = some m ∧
      ∀ m' : Message, m = m' → m.to_bytes = m'.to_bytes := by
  refine ⟨?_, fun m' h => congrArg Message.to_bytes h⟩
  cases m with
  | Auth v tok cid => rfl
  | AuthResponse s e sv => cases e <;> rfl
  | CreateTunnel lp rp proto name => cases rp <;> cases proto <;> cases name <;> rfl
  | TunnelCreated tid rp lp proto name => cases proto <;> cases name <;> rfl
  | CloseTunnel tid => rfl
  | TunnelClosed tid r => rfl
  | Data tid data cid =>
    have h : Message.from_bytes (Message.to_bytes (.Data tid data cid)) =
        (decodeNums (data.map Json.num)).bind
          (fun d => some (.Data tid d cid)) := rfl
    rw [h, decodeNums_map]
    rfl
  | NewConnection tid cid addr => rfl
  | ConnectionClosed tid cid => rfl
  | Ping ts => rfl
  | Pong ts => rfl
  | StatusRequest => rfl
  | Status ts conns up =>
    have h : Message.from_bytes (Message.to_bytes (.Status ts conns up)) =
        (decodeTunnelInfos (ts.map TunnelInfo.toJson)).bind
          (fun l => some (.Status l conns up)) := rfl
    rw [h, decodeTunnelInfos_map]
    rfl
  | Error code msg => cases code <;> rfl

/-! ### Wire framing — the control-stream read loops

`NatServer::handle_read` (server.rs lines 183–251) and
`ServerConnection::handle_read` (client connection.rs lines 222–271) run the
same framing loop: read a 4-byte big-endian length, stop the stream if it
exceeds 1 MiB (`len > 1024*1024`), read exactly `len` payload bytes (a short
read stops the stream), decode, and on decode failure `continue` with the
next frame.  `readMessages` is that loop over an explicit byte stream,
parameterized by the decoder, returning the decoded messages in the order
they are dispatched. -/

def be32 : List Nat → Nat
  | [b0, b1, b2, b3] => ((b0 * 256 + b1) * 256 + b2) * 256 + b3
  | _ => 0

def be32Bytes (n : Nat) : List Nat :=
  [n / 16777216 % 256, n / 65536 % 256, n / 256 % 256, n % 256]

theorem be32_be32Bytes (n : Nat) (h : n < 4294967296) :
    be32 (be32Bytes n) = n := by
  simp only [be32, be32Bytes]
  omega

/-- `read_exact` into an `n`-byte buffer: succeeds iff `n` bytes remain. -/
def takeExact (n : Nat) (l : List Nat) : Option (List Nat × List Nat) :=
  if n ≤ l.length then some (l.take n, l.drop n) else none

def readMessages (dec : List Nat → Option Message) (stream : List Nat) :
    List Message :=
  if _h4 : 4 ≤ stream.length then
    let len := be32 (stream.take 4)
    let rest := stream.drop 4
    if len > 1048576 then []
    else if _hp : len ≤ rest.length then
      match dec (rest.take len) with
      | some m => m :: readMessages dec (rest.drop len)
      | none => readMessages dec (rest.drop len)
    else []
  else []
termination_by stream.length
decreasing_by
  all_goals simp only [List.length_drop]
  all_goals omega

/-- One length-prefixed frame: `u32_be length || payload`. -/
def frameOf (p : List Nat) : List Nat := be32Bytes p.length ++ p

def framesOf (ps : List (List Nat)) : List Nat := (ps.map frameOf).flatten

theorem readMessages_nil (dec : List Nat → Option Message) :
    readMessages dec [] = [] := by
  rw [readMessages]
  simp

/-- A declared length over 1 MiB terminates the stream: nothing after the
4-byte header is examined, whatever bytes follow. -/
theorem readMessages_oversize (dec : List Nat → Option Message)
    (hdr rest : List Nat) (h4 : hdr.length = 4) (hbig : 1048576 < be32 hdr) :
    readMessages dec (hdr ++ rest) = [] := by
  have hge : 4 ≤ (hdr ++ rest).length := by
    simp [List.length_append]
    omega
  rw [readMessages, dif_pos hge]
  simp only [List.take_left' h4]
  rw [if_pos hbig]

theorem readMessages_cons_frame (dec : List Nat → Option Message)
    (p rest : List Nat) (hle : p.length ≤ 1048576) :
    readMessages dec (frameOf p ++ rest) =
      match dec p with
      | some m => m :: readMessages dec rest
      | none => readMessages dec rest := by
  have hlen : (be32Bytes p.length).length = 4 := rfl
  have h1 : frameOf p ++ rest = be32Bytes p.length ++ (p ++ rest) := by
    simp [frameOf]
  have h3 : be32 (be32Bytes p.length) = p.length :=
    be32_be32Bytes _ (by omega)
  have hge : 4 ≤ (be32Bytes p.length ++ (p ++ rest)).length := by
    simp [List.length_append, be32Bytes]
  have hp2 : p.length ≤ (p ++ rest).length := by
    simp [List.length_append]
  rw [h1, readMessages, dif_pos hge]
  simp only [List.take_left' hlen, List.drop_left' hlen, h3]
  rw [if_neg (by omega), dif_pos hp2]
  simp only [List.take_left' rfl, List.drop_left' rfl]

/-- Claim C7: on every control stream (both `NatServer::handle_read` and
`ServerConnection::handle_read`): a declared frame length over 1 MiB
terminates the stream without the payload being read; a frame that decodes
to no `Message` is dropped and the loop continues; and all frames of at
most 1 MiB are delivered in arrival order (`filterMap` keeps order and
drops undecodable frames). -/
theorem read_loop_framing (dec : List Nat → Option Message) :
    (∀ hdr rest : List Nat, hdr.length = 4 → 1048576 < be32 hdr →
      readMessages dec (hdr ++ rest) = []) ∧
    (∀ p rest : List Nat, p.length ≤ 1048576 → dec p = none →
      readMessages dec (frameOf p ++ rest) = readMessages dec rest) ∧
    (∀ ps : List (List Nat), (∀ p ∈ ps, p.length ≤ 1048576) →
      readMessages dec (framesOf ps) = ps.filterMap dec) := by
  refine ⟨readMessages_oversize dec, ?_, ?_⟩
  · intro p rest hle hdec
    rw [readMessages_cons_frame dec p rest hle, hdec]
  · intro ps h
    induction ps with
    | nil => exact readMessages_nil dec
    | cons p ps ih =>
      have hp : p.length ≤ 1048576 := h p (List.mem_cons_self p ps)
      have hps : ∀ q ∈ ps, q.length ≤ 1048576 :=
        fun q hq => h q (List.mem_cons_of_mem p hq)
      have hjoin : framesOf (p :: ps) = frameOf p ++ framesOf ps := by
        simp [framesOf]
      rw [hjoin, readMessages_cons_frame dec p (framesOf ps) hp, ih hps,
          List.filterMap_cons]
      cases dec p <;> rfl

/-- Witness for `read_loop_framing` at concrete inputs: a 2 MiB declared
length kills the stream; an undecodable 1-byte frame is skipped; two
well-formed frames are delivered in order. -/
theorem read_loop_framing_witness :
    readMessages (fun _ => some (.Ping 0)) (be32Bytes 2097152 ++ [7, 7]) = [] ∧
    readMessages (fun _ => none) (frameOf [9] ++ []) =
      readMessages (fun _ => none) [] ∧
    readMessages (fun p => some (.Ping p.length)) (framesOf [[4], [5, 6]]) =
      [.Ping 1, .Ping 2] := by
  refine ⟨(read_loop_framing _).1 (be32Bytes 2097152) [7, 7] (by decide)
            (by decide), ?_, ?_⟩
  · exact (read_loop_framing _).2.1 [9] [] (by decide) rfl
  · exact (read_loop_framing _).2.2 [[4], [5, 6]] (by decide)

/-! ### Port allocation — src/server/src/tunnel.rs lines 40–97 -/

structure PortAllocator where
  allocated_ports : List (Nat × Uuid)
  next_port : Nat
  port_range : Nat × Nat
  deriving DecidableEq, Repr

def PortAllocator.new (port_range : Nat × Nat) : PortAllocator :=
  { allocated_ports := [], next_port := port_range.1, port_range := port_range }

/-- Cursor advance in `allocate_port`: `self.next_port += 1;` followed by
`if self.next_port > hi { self.next_port = lo }`.  `next_port` is a `u16`,
so the increment wraps at `2^16` (Rust release-mode semantics). -/
def advanceCursor (lo hi n : Nat) : Nat :=
  let n' := (n + 1) % 65536
  if n' > hi then lo else n'

/-- The sweep loop of `allocate_port` (tunnel.rs lines 68–88): starting from
the rotating cursor, return the first port absent from `allocated_ports`
(WITHOUT recording it in the map — only the caller does that), advancing the
cursor, and give up when the cursor comes back to its starting value.  A
fuel of 65537 exceeds the number of distinct u16 cursor values, so fuel
exhaustion corresponds to a cursor cycle that never revisits `start`, in
which case the source loops forever; this cannot arise from
`PortAllocator::new` with a range inside the u16 space. -/
def sweepLoop (allocated : List (Nat × Uuid)) (lo hi start : Nat) :
    Nat → Nat → Option (Nat × Nat)
  | _, 0 => none
  | cur, fuel + 1 =>
    if acontains cur allocated then
      let nxt := advanceCursor lo hi cur
      if nxt = start then none
      else sweepLoop allocated lo hi start nxt fuel
    else some (cur, advanceCursor lo hi cur)

/-- `PortAllocator::allocate_port` (tunnel.rs lines 55–91).  The preferred
port, when in range and free, is recorded in `allocated_ports` (with the
`Uuid::nil()` placeholder) and returned; otherwise the sweep runs.  Returns
the allocated port (if any) and the mutated allocator. -/
def PortAllocator.allocate_port (a : PortAllocator)
    (preferred_port : Option Nat) : Option Nat × PortAllocator :=
  let tryPref : Option Nat :=
    match preferred_port with
    | some port =>
      if a.port_range.1 ≤ port ∧ port ≤ a.port_range.2 ∧
          acontains port a.allocated_ports = false then
        some port
      else none
    | none => none
  match tryPref with
  | some port =>
    (some port,
     { a with allocated_ports := ainsert port Uuid.nil a.allocated_ports })
  | none =>
    match sweepLoop a.allocated_ports a.port_range.1 a.port_range.2
        a.next_port a.next_port 65537 with
    | some (port, nxt) => (some port, { a with next_port := nxt })
    | none => (none, a)

/-- `PortAllocator::release_port` (tunnel.rs lines 94–96):
`self.allocated_ports.remove(&port).is_some()`. -/
def PortAllocator.release_port (a : PortAllocator) (port : Nat) :
    Bool × PortAllocator :=
  (acontains port a.allocated_ports,
   { a with allocated_ports := aremove port a.allocated_ports })

/-- Claim C5 failing input: the sweep path of `allocate_port` returns a port
without recording it in `allocated_ports`, so the very next call can hand
the same port out again with no intervening `release_port`.  On the server's
range `[8000, 9000]`: `allocate_port(None)` returns 8000 and then
`allocate_port(Some(8000))` returns 8000 again; likewise on range
`[8000, 8001]` three sweep allocations in a row yield 8000, 8001, 8000. -/
theorem allocate_port_double_allocation :
    ((PortAllocator.new (8000, 9000)).allocate_port none).1 = some 8000 ∧
    ((((PortAllocator.new (8000, 9000)).allocate_port none).2).allocate_port
        (some 8000)).1 = some 8000 ∧
    (((((PortAllocator.new (8000, 8001)).allocate_port none).2).allocate_port
        none).2.allocate_port none).1 = some 8000 := by
  refine ⟨rfl, rfl, ?_⟩
  rfl

/-! ### Connection-id assignment — src/server/src/tunnel.rs

`TunnelHandler` (tunnel.rs lines 24–30; the OS `TcpListener` handle is
omitted from the model) and the id-assignment prefix of
`TunnelManager::handle_tunnel_connection` (lines 243–251 and 275–288): take
the current `next_connection_id`, increment it (`u32`, wrapping in release
mode), and register a `TunnelConnection` entry under the taken id.  The
entry's `sender` byte queue is modelled as the list of chunks sent to it. -/

structure TunnelConnection where
  id : Nat
  client_addr : String
  queued : List (List Nat)
  deriving DecidableEq, Repr

structure TunnelHandler where
  info : TunnelInfo
  client_id : String
  connections : List (Nat × TunnelConnection)
  next_connection_id : Nat
  deriving DecidableEq, Repr

def TunnelManager.handle_tunnel_connection (h : TunnelHandler)
    (client_addr : String) : TunnelHandler × Nat :=
  let id := h.next_connection_id
  ({ h with
      next_connection_id := (id + 1) % 4294967296,
      connections :=
        ainsert id { id := id, client_addr := client_addr, queued := [] }
          h.connections },
   id)

/-- The accept loop of a tunnel listener applied to a list of arriving
public peers, returning the connection ids assigned in order. -/
def acceptMany (h : TunnelHandler) : List String → TunnelHandler × List Nat
  | [] => (h, [])
  | a :: rest =>
    let step := TunnelManager.handle_tunnel_connection h a
    let next := acceptMany step.1 rest
    (next.1, step.2 :: next.2)

theorem acceptMany_ids (addrs : List String) (h : TunnelHandler)
    (hn : h.next_connection_id + addrs.length ≤ 4294967296) :
    (acceptMany h addrs).2 =
      List.range' h.next_connection_id addrs.length := by
  induction addrs generalizing h with
  | nil => rfl
  | cons a rest ih =>
    have hn' : h.next_connection_id + 1 + rest.length ≤ 4294967296 := by
      simp [List.length_cons] at hn
      omega
    have hstep : (acceptMany h (a :: rest)).2 =
        h.next_connection_id ::
          (acceptMany (TunnelManager.handle_tunnel_connection h a).1 rest).2 :=
      rfl
    have hcur : (TunnelManager.handle_tunnel_connection h a).1.next_connection_id =
        (h.next_connection_id + 1) % 4294967296 := rfl
    have hcond : (TunnelManager.handle_tunnel_connection h a).1.next_connection_id
        + rest.length ≤ 4294967296 := by
      rw [hcur]
      have := Nat.mod_le (h.next_connection_id + 1) 4294967296
      omega
    rw [hstep, ih _ hcond, hcur]
    cases rest with
    | nil => simp [List.range']
    | cons b rest' =>
      have hmod : (h.next_connection_id + 1) % 4294967296 =
          h.next_connection_id + 1 := by
        apply Nat.mod_eq_of_lt
        simp [List.length_cons] at hn'
        omega
      rw [hmod]
      simp [List.range'_succ, List.length_cons]

/-- Claim C8: within a tunnel whose handler starts at `next_connection_id = 1`
(as constructed by `TunnelManager::create_tunnel`, tunnel.rs line 147), the
ids assigned to accepted public connections are exactly 1, 2, 3, …: the
`k`-th accept gets id `k`, and no id is assigned twice (for any number of
accepts below the u32 wrap point). -/
theorem tunnel_connection_ids (addrs : List String) (h : TunnelHandler)
    (hfresh : h.next_connection_id = 1)
    (hcount : addrs.length < 4294967296) :
    (acceptMany h addrs).2 = List.range' 1 addrs.length ∧
      (acceptMany h addrs).2.Nodup := by
  have hids : (acceptMany h addrs).2 = List.range' 1 addrs.length := by
    have h1 := acceptMany_ids addrs h (by rw [hfresh]; omega)
    rw [hfresh] at h1
    exact h1
  exact ⟨hids, hids ▸ List.nodup_range' 1 addrs.length 1 (by norm_num)⟩

def sampleHandler : TunnelHandler :=
  { info := { id := 1, name := none, protocol := .Tcp, local_port := 5555,
              remote_port := 8000, created_at := 0, bytes_sent := 0,
              bytes_received := 0, active_connections := 0 },
    client_id := "c1",
    connections := [],
    next_connection_id := 1 }

/-- Witness for `tunnel_connection_ids`: three accepted peers get ids
1, 2, 3 with no duplicates. -/
theorem tunnel_connection_ids_witness :
    (acceptMany sampleHandler ["p1", "p2", "p3"]).2 = List.range' 1 3 ∧
      (acceptMany sampleHandler ["p1", "p2", "p3"]).2.Nodup :=
  tunnel_connection_ids ["p1", "p2", "p3"] sampleHandler rfl (by decide)

/-! ### Error display — src/common/src/error.rs

The `thiserror` display strings of the `NatError` variants that the server's
message handler can produce; `handle_read` embeds them (via `to_string`) in
`Error{InternalError, …}` replies. -/

inductive NatErrorM where
  | Authentication (message : String)
  | Tunnel (message : String)
  | Connection (message : String)
  deriving DecidableEq, Repr

def NatErrorM.to_string : NatErrorM → String
  | .Authentication m => "Authentication failed: " ++ m
  | .Tunnel m => "Tunnel error: " ++ m
  | .Connection m => "Connection error: " ++ m

/-! ### Server engine — src/server/src/server.rs and connection.rs

Channels (`mpsc::UnboundedSender<Message>`) are modelled as message lists
keyed by a channel handle; a send appends.  `Arc<ClientConnection>` values
live in a heap `sessions` keyed by an allocation handle, so that both the
read task's `client_connection` and the registry hold the same object, as
the `Arc` clones do in the source.  The `Oracle` carries the
non-deterministic inputs of a step: the address of the `Arc::new`
allocation, the `Uuid::new_v4()` draw, and `Utc::now()`. -/

structure ClientConnection where
  id : String
  addr : String
  authenticated : Bool
  tunnels : List (Uuid × TunnelInfo)
  sender : Nat
  connected_at : Nat
  deriving DecidableEq, Repr

/-- `ClientConnection::new` (connection.rs lines 30–41): `authenticated`
starts (and in the source forever stays) `false`. -/
def ClientConnection.new (id : String) (addr : String) (sender : Nat)
    (now : Nat) : ClientConnection :=
  { id := id, addr := addr, authenticated := false, tunnels := [],
    sender := sender, connected_at := now }

def ClientConnection.add_tunnel (c : ClientConnection) (t : TunnelInfo) :
    ClientConnection :=
  { c with tunnels := ainsert t.id t c.tunnels }

def ClientConnection.remove_tunnel (c : ClientConnection) (tunnel_id : Uuid) :
    ClientConnection :=
  { c with tunnels := aremove tunnel_id c.tunnels }

def ClientConnection.list_tunnels (c : ClientConnection) : List TunnelInfo :=
  c.tunnels.map (·.2)

structure ServerState where
  channels : List (Nat × List Message)
  sessions : List (Nat × ClientConnection)
  clients : List (String × Nat)
  auth_tokens : List String
  tunnels : List (Uuid × TunnelHandler)
  port_allocator : PortAllocator
  deriving DecidableEq, Repr

/-- `tx.send(message)`: append to the channel's sent sequence. -/
def sendOn (tx : Nat) (m : Message) (st : ServerState) : ServerState :=
  { st with
      channels := ainsert tx ((alookup tx st.channels).getD [] ++ [m])
        st.channels }

/-- `ConnectionManager::authenticate` (connection.rs lines 116–127): exact
membership of the token in the accepted list; `client_id` is not used. -/
def ConnectionManager.authenticate (st : ServerState) (token : String)
    (_client_id : String) : Bool :=
  st.auth_tokens.contains token

/-- `ConnectionManager::add_client` (connection.rs lines 101–104): a plain
`HashMap::insert`, replacing any existing entry for the same client id.
The heap gains the freshly allocated session object. -/
def ConnectionManager.add_client (st : ServerState) (handle : Nat)
    (client : ClientConnection) : ServerState :=
  { st with
      sessions := ainsert handle client st.sessions,
      clients := ainsert client.id handle st.clients }

/-- `ConnectionManager::remove_client` (connection.rs lines 106–109); the
heap entry survives while other `Arc` clones exist. -/
def ConnectionManager.remove_client (st : ServerState) (client_id : String) :
    ServerState :=
  { st with clients := aremove client_id st.clients }

/-- `ConnectionManager::get_client` (connection.rs lines 111–114): an `Arc`
clone, i.e. the session handle. -/
def ConnectionManager.get_client (st : ServerState) (client_id : String) :
    Option Nat :=
  alookup client_id st.clients

/-- Mutate the session object behind an `Arc` handle (the effect of calling
a `&self` method that writes through the `Arc`). -/
def heapUpdate (st : ServerState) (h : Nat)
    (f : ClientConnection → ClientConnection) : ServerState :=
  match alookup h st.sessions with
  | some c => { st with sessions := ainsert h (f c) st.sessions }
  | none => st

/-- `TunnelManager::create_tunnel` (tunnel.rs lines 108–164): allocate the
remote port (preferring `remote_port`), overwrite the placeholder
reservation with the real tunnel id, build the `TunnelInfo` and a handler
with `next_connection_id = 1`, and register it.  The spawned listener task
(`start_tunnel_listener`) performs the bind asynchronously and is not part
of this state transition. -/
def TunnelManager.create_tunnel (st : ServerState) (client_id : String)
    (local_port : Nat) (remote_port : Option Nat) (protocol : TunnelProtocol)
    (name : Option String) (tunnel_id : Uuid) (now : Nat) :
    Except NatErrorM (TunnelInfo × ServerState) :=
  match st.port_allocator.allocate_port remote_port with
  | (none, _) => .error (.Tunnel "No available ports")
  | (some assigned_port, alloc) =>
    let alloc2 := { alloc with
      allocated_ports := ainsert assigned_port tunnel_id alloc.allocated_ports }
    let info : TunnelInfo :=
      { id := tunnel_id, name := name, protocol := protocol,
        local_port := local_port, remote_port := assigned_port,
        created_at := now, bytes_sent := 0, bytes_received := 0,
        active_connections := 0 }
    let handler : TunnelHandler :=
      { info := info, client_id := client_id, connections := [],
        next_connection_id := 1 }
    .ok (info, { st with tunnels := ainsert tunnel_id handler st.tunnels,
                         port_allocator := alloc2 })

/-- `TunnelManager::close_tunnel` (tunnel.rs lines 166–178): remove the
handler whatever session asks, release its port; error only when the id is
unknown. -/
def TunnelManager.close_tunnel (st : ServerState) (tunnel_id : Uuid) :
    Except NatErrorM ServerState :=
  match alookup tunnel_id st.tunnels with
  | some handler =>
    .ok { st with
      tunnels := aremove tunnel_id st.tunnels,
      port_allocator := (st.port_allocator.release_port
        handler.info.remote_port).2 }
  | none => .error (.Tunnel "Tunnel not found")

/-- `TunnelManager::forward_data` (tunnel.rs lines 350–369): enqueue the
bytes on the matching public connection's writer queue; both a missing
tunnel and a missing connection fall through to `Err("Connection not
found")`. -/
def TunnelManager.forward_data (st : ServerState) (tunnel_id : Uuid)
    (connection_id : Nat) (data : List Nat) : Except NatErrorM ServerState :=
  match alookup tunnel_id st.tunnels with
  | some tunnel =>
    match alookup connection_id tunnel.connections with
    | some conn =>
      .ok { st with
        tunnels := ainsert tunnel_id
          { tunnel with
              connections := ainsert connection_id
                { conn with queued := conn.queued ++ [data] }
                tunnel.connections }
          st.tunnels }
    | none => .error (.Tunnel "Connection not found")
  | none => .error (.Tunnel "Connection not found")

structure Oracle where
  handle : Nat
  tunnel_id : Uuid
  now : Nat
  deriving DecidableEq, Repr

/-- `NatServer::handle_message` (server.rs lines 253–384).  `tx` is the
current control stream's outbound channel; `client_connection` is the
stream's session handle (`None` until a successful `Auth`).  Note which
arms consult `client_connection`: `CreateTunnel`, `CloseTunnel` and
`StatusRequest` do; `Data` and `Ping` do not.  The `dangling session
handle` arms are unreachable (an `Arc` dereference cannot fail) and exist
only to keep the model total. -/
def NatServer.handle_message (msg : Message)
    (client_connection : Option Nat) (addr : String) (tx : Nat)
    (st : ServerState) (o : Oracle) :
    Except NatErrorM (ServerState × Option Nat) :=
  match msg with
  | .Auth version token client_id =>
    if version ≠ PROTOCOL_VERSION then
      .ok (sendOn tx
        (.AuthResponse false (some "Protocol version mismatch")
          PROTOCOL_VERSION) st, client_connection)
    else
      let success := ConnectionManager.authenticate st token client_id
      let stepped :=
        if success then
          (ConnectionManager.add_client st o.handle
            (ClientConnection.new client_id addr tx o.now), some o.handle)
        else (st, client_connection)
      let response : Message := .AuthResponse success
        (if success then none else some "Authentication failed")
        PROTOCOL_VERSION
      .ok (sendOn tx response stepped.1, stepped.2)
  | .CreateTunnel local_port remote_port protocol name =>
    match client_connection with
    | some h =>
      match alookup h st.sessions with
      | some client =>
        match TunnelManager.create_tunnel st client.id local_port remote_port
            protocol name o.tunnel_id o.now with
        | .error e => .error e
        | .ok (info, st1) =>
          let st2 := heapUpdate st1 h (fun c => c.add_tunnel info)
          .ok (sendOn tx
            (.TunnelCreated info.id info.remote_port info.local_port
              info.protocol info.name) st2, client_connection)
      | none => .error (.Connection "dangling session handle")
    | none => .error (.Authentication "Not authenticated")
  | .CloseTunnel tunnel_id =>
    match client_connection with
    | some h =>
      match TunnelManager.close_tunnel st tunnel_id with
      | .error e => .error e
      | .ok st1 =>
        let st2 := heapUpdate st1 h (fun c => c.remove_tunnel tunnel_id)
        .ok (sendOn tx (.TunnelClosed tunnel_id "Closed by client") st2,
          client_connection)
    | none => .error (.Authentication "Not authenticated")
  | .Data tunnel_id data connection_id =>
    match TunnelManager.forward_data st tunnel_id connection_id data with
    | .error e => .error e
    | .ok st1 => .ok (st1, client_connection)
  | .Ping timestamp =>
    .ok (sendOn tx (.Pong timestamp) st, client_connection)
  | .StatusRequest =>
    match client_connection with
    | some h =>
      match alookup h st.sessions with
      | some client =>
        .ok (sendOn tx
          (.Status client.list_tunnels 0 (o.now - client.connected_at)) st,
          client_connection)
      | none => .error (.Connection "dangling session handle")
    | none => .ok (st, client_connection)
  | _ => .ok (st, client_connection)

/-- One iteration of the dispatch in `NatServer::handle_read` (server.rs
lines 223–242): on a handler error, send `Error{InternalError,
e.to_string()}` on the stream and keep going. -/
def NatServer.handle_read_step (st : ServerState)
    (client_connection : Option Nat) (addr : String) (tx : Nat)
    (msg : Message) (o : Oracle) : ServerState × Option Nat :=
  match NatServer.handle_message msg client_connection addr tx st o with
  | .ok r => r
  | .error e =>
    (sendOn tx (.Error .InternalError e.to_string) st, client_connection)

/-- The dispatch loop of `NatServer::handle_read` over the stream's decoded
messages (framing modelled separately by `readMessages`), with the final
cleanup `remove_client` of server.rs lines 245–248 when the stream ends. -/
def NatServer.handle_read_loop (st : ServerState)
    (client_connection : Option Nat) (addr : String) (tx : Nat) :
    List (Message × Oracle) → ServerState × Option Nat
  | [] =>
    (match client_connection with
     | some h =>
       match alookup h st.sessions with
       | some client => ConnectionManager.remove_client st client.id
       | none => st
     | none => st,
     client_connection)
  | (msg, o) :: rest =>
    let step := NatServer.handle_read_step st client_connection addr tx msg o
    NatServer.handle_read_loop step.1 step.2 addr tx rest

/-! ### Client engine — src/client/src/connection.rs

Only the pieces the claims bear on: the observable `ConnectionState`, the
outbound sender (`message_sender`, `None` while the control stream is not
up, otherwise the queue of enqueued messages), `authenticate`,
`send_message`, `create_tunnel`, and the `state`-writing part of the
client's `handle_message`.  Operations return their `NatResult` alongside
the mutated connection (mutations made before an early `Err` persist, as
they do through the `Arc`-held locks in the source). -/

inductive ConnectionState where
  | Disconnected
  | Connecting
  | Connected
  | Authenticated
  | Error (msg : String)
  deriving DecidableEq, Repr

structure ServerConnection where
  state : ConnectionState
  tunnels : List (Uuid × TunnelInfo)
  message_sender : Option (List Message)
  pending_tunnels : List (Uuid × (String × TunnelProtocol))
  token : String
  client_id : String
  deriving DecidableEq, Repr

/-- `ServerConnection::send_message` (connection.rs lines 401–410). -/
def ServerConnection.send_message (c : ServerConnection) (m : Message) :
    Except NatErrorM Unit × ServerConnection :=
  match c.message_sender with
  | some q => (.ok (), { c with message_sender := some (q ++ [m]) })
  | none => (.error (.Connection "Not connected"), c)

/-- `ServerConnection::authenticate` (connection.rs lines 183–200): send
`Auth`, sleep 100 ms, then set the state to `Authenticated` without having
read any response ("we'll assume success after sending"). -/
def ServerConnection.authenticate (c : ServerConnection) :
    Except NatErrorM Unit × ServerConnection :=
  match c.send_message (.Auth PROTOCOL_VERSION c.token c.client_id) with
  | (.ok _, c1) => (.ok (), { c1 with state := .Authenticated })
  | (.error e, c1) => (.error e, c1)

/-- `ServerConnection::create_tunnel` (connection.rs lines 412–435): record
the pending-tunnel metadata under a fresh uuid, then enqueue one
`CreateTunnel` message; the function never reads any server response. -/
def ServerConnection.create_tunnel (c : ServerConnection) (local_port : Nat)
    (remote_port : Option Nat) (protocol : TunnelProtocol)
    (name : Option String) (pending_uuid : Uuid) :
    Except NatErrorM Unit × ServerConnection :=
  let tunnel_name := name.getD ("Tunnel " ++ toString local_port)
  let c1 := { c with
    pending_tunnels := ainsert pending_uuid (tunnel_name, protocol)
      c.pending_tunnels }
  c1.send_message (.CreateTunnel local_port remote_port protocol name)

/-- The `state` component of the client's `ServerConnection::handle_message`
(connection.rs lines 273–383): only the `AuthResponse` arm writes `state` —
to `Authenticated` on success, else to `Error` with the carried reason (or
"Unknown error"). -/
def ServerConnection.handle_message_state (state : ConnectionState)
    (msg : Message) : ConnectionState :=
  match msg with
  | .AuthResponse success error _ =>
    if success then .Authenticated
    else .Error (error.getD "Unknown error")
  | _ => state

/-! ### Concrete states used by counterexamples and witnesses -/

def st0 : ServerState :=
  { channels := [(0, [])], sessions := [], clients := [],
    auth_tokens := ["secret"], tunnels := [],
    port_allocator := PortAllocator.new (8000, 9000) }

def oracle0 : Oracle := { handle := 100, tunnel_id := 50, now := 0 }

def tunnel42 : TunnelHandler :=
  { info := { id := 42, name := some "web", protocol := .Tcp,
              local_port := 5555, remote_port := 8000, created_at := 0,
              bytes_sent := 0, bytes_received := 0, active_connections := 0 },
    client_id := "A",
    connections := [(1, { id := 1, client_addr := "peer:1", queued := [] })],
    next_connection_id := 2 }

def stWithTunnel : ServerState :=
  { st0 with
      tunnels := [(42, tunnel42)],
      port_allocator := { allocated_ports := [(8000, 42)],
                          next_port := 8001, port_range := (8000, 9000) } }

def st4init : ServerState :=
  { channels := [(0, []), (1, [])], sessions := [], clients := [],
    auth_tokens := ["secret"], tunnels := [],
    port_allocator := PortAllocator.new (8000, 9000) }

def clientConnected : ServerConnection :=
  { state := .Connected, tunnels := [], message_sender := some [],
    pending_tunnels := [], token := "secret", client_id := "c1" }

def clientNoSender : ServerConnection :=
  { state := .Connected, tunnels := [], message_sender := none,
    pending_tunnels := [], token := "secret", client_id := "c1" }

/-! ### Claim C1 -/

/-- Claim C1 counterexample: on the unauthenticated stream of `st0`, a
`Ping` is answered with `Pong` (the requested action is performed, not
refused), and on `stWithTunnel` an unauthenticated `Data` frame is
forwarded into tunnel 42's public-connection queue. -/
theorem unauthenticated_ping_echoed_and_data_forwarded :
    (NatServer.handle_read_step st0 none "9.9.9.9:1" 0 (.Ping 7)
        oracle0).1.channels = [(0, [.Pong 7])] ∧
    ((alookup 42 (NatServer.handle_read_step stWithTunnel none "9.9.9.9:1" 0
        (.Data 42 [104, 105] 1) oracle0).1.tunnels).map
      (fun t => (alookup 1 t.connections).map (fun q => q.queued)))
      = some (some [[104, 105]]) := by
  decide

/-- Claim C1 (amended): with `client_connection` unset, `CreateTunnel` and
`CloseTunnel` are refused — answered with `Error{InternalError,
"Authentication failed: Not authenticated"}`, state untouched — and
`StatusRequest` is silently ignored; but `Ping` is answered with `Pong`,
and `Data` is handled identically whether or not the session is
authenticated (it is forwarded whenever the target connection exists). -/
theorem unauthenticated_message_handling
    (st : ServerState) (addr : String) (tx : Nat) (o : Oracle) :
    (∀ lp rp proto nm,
      NatServer.handle_read_step st none addr tx
          (.CreateTunnel lp rp proto nm) o
        = (sendOn tx (.Error .InternalError
            (NatErrorM.Authentication "Not authenticated").to_string) st,
           none)) ∧
    (∀ tid,
      NatServer.handle_read_step st none addr tx (.CloseTunnel tid) o
        = (sendOn tx (.Error .InternalError
            (NatErrorM.Authentication "Not authenticated").to_string) st,
           none)) ∧
    (NatServer.handle_read_step st none addr tx .StatusRequest o
      = (st, none)) ∧
    (∀ t, NatServer.handle_read_step st none addr tx (.Ping t) o
      = (sendOn tx (.Pong t) st, none)) ∧
    (∀ tid d cid c1 c2,
      (NatServer.handle_read_step st c1 addr tx (.Data tid d cid) o).1
        = (NatServer.handle_read_step st c2 addr tx (.Data tid d cid) o).1) := by
  refine ⟨fun lp rp proto nm => rfl, fun tid => rfl, rfl, fun t => rfl, ?_⟩
  intro tid d cid c1 c2
  simp only [NatServer.handle_read_step, NatServer.handle_message]
  cases TunnelManager.forward_data st tid cid d <;> rfl

/-- The display string embedded in the refusal of claim C1's amended form. -/
theorem natErrorM_auth_display :
    (NatErrorM.Authentication "Not authenticated").to_string
      = "Authentication failed: Not authenticated" := by
  decide

/-! ### Claim C2 -/

/-- Claim C2 counterexample: after the server replies
`AuthResponse{success=false}` — once for a version mismatch, once for a
wrong token — the stream is NOT closed: a subsequent `Ping` on the same
stream is still processed and answered with `Pong`. -/
theorem auth_failure_does_not_close_stream :
    (NatServer.handle_read_loop st0 none "9.9.9.9:1" 0
        [(.Auth 2 "secret" "c1", oracle0), (.Ping 7, oracle0)]).1.channels
      = [(0, [.AuthResponse false (some "Protocol version mismatch") 1,
              .Pong 7])] ∧
    (NatServer.handle_read_loop st0 none "9.9.9.9:1" 0
        [(.Auth 1 "WRONG" "c1", oracle0), (.Ping 7, oracle0)]).1.channels
      = [(0, [.AuthResponse false (some "Authentication failed") 1,
              .Pong 7])] := by
  decide

/-- Claim C2 (amended): on a failed `Auth` (version mismatch or rejected
token) the server sends `AuthResponse{success=false}` on the stream and
registers no session (`client_connection` stays `None`), but it does not
close the stream: the read loop continues with the remaining messages
exactly as if the failed `Auth` had only deposited its response. -/
theorem auth_failure_reply_and_continue
    (st : ServerState) (addr : String) (tx : Nat) (o : Oracle)
    (rest : List (Message × Oracle)) :
    (∀ v tok cid, v ≠ PROTOCOL_VERSION →
      NatServer.handle_read_loop st none addr tx ((.Auth v tok cid, o) :: rest)
        = NatServer.handle_read_loop
            (sendOn tx (.AuthResponse false (some "Protocol version mismatch")
              PROTOCOL_VERSION) st) none addr tx rest) ∧
    (∀ tok cid, tok ∉ st.auth_tokens →
      NatServer.handle_read_loop st none addr tx
          ((.Auth PROTOCOL_VERSION tok cid, o) :: rest)
        = NatServer.handle_read_loop
            (sendOn tx (.AuthResponse false (some "Authentication failed")
              PROTOCOL_VERSION) st) none addr tx rest) := by
  constructor
  · intro v tok cid hv
    simp [NatServer.handle_read_loop, NatServer.handle_read_step,
          NatServer.handle_message, hv]
  · intro tok cid htok
    simp [NatServer.handle_read_loop, NatServer.handle_read_step,
          NatServer.handle_message, ConnectionManager.authenticate, htok]

/-- Witness for `auth_failure_reply_and_continue` on `st0`: version 2 and
token "WRONG". -/
theorem auth_failure_reply_and_continue_witness :
    NatServer.handle_read_loop st0 none "a:1" 0
        [(.Auth 2 "secret" "c1", oracle0)]
      = NatServer.handle_read_loop
          (sendOn 0 (.AuthResponse false (some "Protocol version mismatch")
            PROTOCOL_VERSION) st0) none "a:1" 0 [] ∧
    NatServer.handle_read_loop st0 none "a:1" 0
        [(.Auth PROTOCOL_VERSION "WRONG" "c1", oracle0)]
      = NatServer.handle_read_loop
          (sendOn 0 (.AuthResponse false (some "Authentication failed")
            PROTOCOL_VERSION) st0) none "a:1" 0 [] :=
  ⟨(auth_failure_reply_and_continue st0 "a:1" 0 oracle0 []).1 2 "secret" "c1"
     (by decide),
   (auth_failure_reply_and_continue st0 "a:1" 0 oracle0 []).2 "WRONG" "c1"
     (by decide)⟩

/-! ### Claim C4 -/

/-- Stream 0: client "A" authenticates. -/
def c4_stepA : ServerState × Option Nat :=
  NatServer.handle_read_step st4init none "a:1" 0
    (.Auth 1 "secret" "A") { handle := 1, tunnel_id := 0, now := 0 }

/-- Stream 0: "A" creates tunnel 42 (gets port 8000). -/
def c4_stepA2 : ServerState × Option Nat :=
  NatServer.handle_read_step c4_stepA.1 c4_stepA.2 "a:1" 0
    (.CreateTunnel 5555 none .Tcp (some "web"))
    { handle := 1, tunnel_id := 42, now := 0 }

/-- Stream 1: client "B" authenticates. -/
def c4_stepB : ServerState × Option Nat :=
  NatServer.handle_read_step c4_stepA2.1 none "b:2" 1
    (.Auth 1 "secret" "B") { handle := 2, tunnel_id := 0, now := 0 }

/-- Stream 1: "B" sends `CloseTunnel{42}` for A's tunnel. -/
def c4_stepB2 : ServerState × Option Nat :=
  NatServer.handle_read_step c4_stepB.1 c4_stepB.2 "b:2" 1
    (.CloseTunnel 42) { handle := 2, tunnel_id := 0, now := 0 }

/-- Claim C4 failing input: client "A" authenticates on stream 0 and
creates tunnel 42 (port 8000); client "B" authenticates on stream 1 and
sends `CloseTunnel{42}`.  The server closes A's tunnel: the handler is
removed, port 8000 is released, and B even receives
`TunnelClosed{42, "Closed by client"}` — no ownership check exists. -/
theorem close_tunnel_ignores_ownership :
    (alookup 42 c4_stepA2.1.tunnels).map (fun t => t.client_id) = some "A" ∧
    acontains 8000 c4_stepA2.1.port_allocator.allocated_ports = true ∧
    c4_stepB.2 = some 2 ∧
    alookup 42 c4_stepB2.1.tunnels = none ∧
    acontains 8000 c4_stepB2.1.port_allocator.allocated_ports = false ∧
    alookup 1 c4_stepB2.1.channels
      = some [.AuthResponse true none 1, .TunnelClosed 42 "Closed by client"] := by
  decide

/-! ### Claim C10 -/

/-- Claim C10: a second successful `Auth` with an already-registered
`client_id` silently replaces the registry entry: `get_client` afterwards
returns the newer session handle; the older session object is still intact
in the heap (so it was sent no close notification — its stream's channel is
untouched); and the registry no longer maps the id to it. -/
theorem add_client_replaces_on_reauth
    (st : ServerState) (addr1 addr2 : String) (tx1 tx2 : Nat)
    (tok cid : String) (h1 h2 u1 u2 n1 n2 : Nat)
    (htok : tok ∈ st.auth_tokens)
    (hh : h1 ≠ h2) (htx : tx1 ≠ tx2) :
    let s1 := NatServer.handle_read_step st none addr1 tx1
      (.Auth PROTOCOL_VERSION tok cid) { handle := h1, tunnel_id := u1, now := n1 }
    let s2 := NatServer.handle_read_step s1.1 none addr2 tx2
      (.Auth PROTOCOL_VERSION tok cid) { handle := h2, tunnel_id := u2, now := n2 }
    ConnectionManager.get_client s2.1 cid = some h2 ∧
    alookup h1 s2.1.sessions = some (ClientConnection.new cid addr1 tx1 n1) ∧
    alookup tx1 s2.1.channels = alookup tx1 s1.1.channels ∧
    s2.2 = some h2 := by
  simp [NatServer.handle_read_step, NatServer.handle_message,
    ConnectionManager.authenticate, ConnectionManager.add_client,
    ConnectionManager.get_client, sendOn, ClientConnection.new, htok,
    alookup_ainsert_self, alookup_ainsert_ne, hh, htx]

/-- Witness for `add_client_replaces_on_reauth` on `st0` with client id
"c1" re-authenticating from a second stream. -/
theorem add_client_replaces_on_reauth_witness :
    let s1 := NatServer.handle_read_step st0 none "a:1" 0
      (.Auth PROTOCOL_VERSION "secret" "c1")
      { handle := 1, tunnel_id := 0, now := 0 }
    let s2 := NatServer.handle_read_step s1.1 none "b:2" 1
      (.Auth PROTOCOL_VERSION "secret" "c1")
      { handle := 2, tunnel_id := 0, now := 0 }
    ConnectionManager.get_client s2.1 "c1" = some 2 ∧
    alookup 1 s2.1.sessions = some (ClientConnection.new "c1" "a:1" 0 0) ∧
    alookup 0 s2.1.channels = alookup 0 s1.1.channels ∧
    s2.2 = some 2 :=
  add_client_replaces_on_reauth st0 "a:1" "b:2" 0 1 "secret" "c1" 1 2 0 0 0 0
    (by decide) (by decide) (by decide)

/-! ### Claim C3 -/

/-- Claim C3 failing input: from the `Connected` state with the stream up
and NOTHING received from the server (no `AuthResponse` at all — the only
effect is the enqueued `Auth`), `authenticate` already sets the observable
state to `Authenticated`. -/
theorem authenticate_reaches_authenticated_without_response :
    (clientConnected.authenticate).1 = .ok () ∧
    (clientConnected.authenticate).2.state = .Authenticated ∧
    (clientConnected.authenticate).2.message_sender
      = some [.Auth PROTOCOL_VERSION "secret" "c1"] := by
  exact ⟨rfl, rfl, rfl⟩

/-- The half of claim C3 the code does satisfy: the client's
`handle_message` sets `Error(reason)` on `AuthResponse{success=false}` and
`Authenticated` on success. -/
theorem handle_auth_response_state (st : ConnectionState) (e : String)
    (v : Nat) :
    ServerConnection.handle_message_state st (.AuthResponse false (some e) v)
        = .Error e ∧
    ServerConnection.handle_message_state st (.AuthResponse true none v)
        = .Authenticated := by
  exact ⟨rfl, rfl⟩

/-! ### Claim C9 -/

/-- Claim C9: `create_tunnel` with the control stream down (no outbound
sender installed) fails with the `NotConnected` connection error and
enqueues no message (there is still no queue); with the stream up it
returns success immediately — the function consumes no server response —
having appended exactly one `CreateTunnel` message to the outbound queue. -/
theorem create_tunnel_contract (c : ServerConnection) (lp : Nat)
    (rp : Option Nat) (proto : TunnelProtocol) (nm : Option String)
    (u : Uuid) :
    (c.message_sender = none →
      (c.create_tunnel lp rp proto nm u).1
          = .error (.Connection "Not connected") ∧
      (c.create_tunnel lp rp proto nm u).2.message_sender = none) ∧
    (∀ q, c.message_sender = some q →
      (c.create_tunnel lp rp proto nm u).1 = .ok () ∧
      (c.create_tunnel lp rp proto nm u).2.message_sender
        = some (q ++ [.CreateTunnel lp rp proto nm])) := by
  constructor
  · intro hnone
    simp [ServerConnection.create_tunnel, ServerConnection.send_message, hnone]
  · intro q hq
    simp [ServerConnection.create_tunnel, ServerConnection.send_message, hq]

/-- Witness for `create_tunnel_contract`: one client without a sender, one
with an empty queue. -/
theorem create_tunnel_contract_witness :
    ((clientNoSender.create_tunnel 5555 none .Tcp none 9).1
        = .error (.Connection "Not connected") ∧
      (clientNoSender.create_tunnel 5555 none .Tcp none 9).2.message_sender
        = none) ∧
    ((clientConnected.create_tunnel 5555 none .Tcp none 9).1 = .ok () ∧
      (clientConnected.create_tunnel 5555 none .Tcp none 9).2.message_sender
        = some [.CreateTunnel 5555 none .Tcp none]) :=
  ⟨(create_tunnel_contract clientNoSender 5555 none .Tcp none 9).1 rfl,
   (create_tunnel_contract clientConnected 5555 none .Tcp none 9).2 [] rfl⟩

end NatTraversal
